import Mathlib

/-!
Verification development for the smart-task-planner core
(`llm_handler.py`: class `LLMTaskPlanner`).

Shallow embedding conventions:
* Python `str` values that the code manipulates character-by-character are
  modelled as `List Char` (Python indexes by code point, as does `String.toList`).
* Python `datetime` values are modelled as integer seconds since the epoch,
  unbounded (CPython bounds years to 1..9999; the arithmetic in
  `generate_fallback_tasks` stays within that range for any realistic clock,
  so the bound is not modelled).  `timedelta.days` is floor division by 86400
  (`Int.fdiv`), matching CPython's normalisation.
* JSON-like Python values (the result of `json5.loads`) are modelled by `JVal`.
  Python dicts are association lists in insertion order; `json5` never
  produces duplicate keys.
* External collaborators are parameters: the Hugging Face chat API is a
  function from attempt index to a result, and the third-party `json5.loads`
  is a function parameter `loads`.  A small concrete JSON parser `jsonLoads`
  (accepting trailing commas, as `json5` does) is provided so that witnesses
  and counterexamples can run the whole pipeline on concrete inputs.
  The standard library's `datetime.strptime(deadline, "%Y-%m-%d")` is the
  same kind of boundary: its exact accept set depends on the runtime's
  Unicode tables (the regex `\d` covers non-ASCII decimal digits), so the
  fallback-generator theorems take it as a parameter `strptime`, while the
  concrete `parseDateYMD` — exact for ASCII inputs — instantiates witnesses
  and the pipeline's concrete runs.
* Fallible Python code returns `Except`: an uncaught exception is `.error`.
-/

namespace STP

/-! ## Python string helpers -/

/-- The characters Python's `str.strip()` removes: the Unicode whitespace
set (U+0009-U+000D, U+001C-U+001F, space, U+0085, U+00A0, U+1680,
U+2000-U+200A, U+2028, U+2029, U+202F, U+205F, U+3000). -/
def pyIsSpaceChar (c : Char) : Bool :=
  decide ((9 ≤ c.toNat ∧ c.toNat ≤ 13) ∨ (28 ≤ c.toNat ∧ c.toNat ≤ 31) ∨ c.toNat = 32
    ∨ c.toNat = 133 ∨ c.toNat = 160 ∨ c.toNat = 5760
    ∨ (8192 ≤ c.toNat ∧ c.toNat ≤ 8202) ∨ c.toNat = 8232 ∨ c.toNat = 8233
    ∨ c.toNat = 8239 ∨ c.toNat = 8287 ∨ c.toNat = 12288)

/-- Python `str.strip()`. -/
def pyStrip (s : List Char) : List Char :=
  ((s.dropWhile pyIsSpaceChar).reverse.dropWhile pyIsSpaceChar).reverse

/-- Whitespace skipping used by the concrete JSON parser. -/
def skipWs (s : List Char) : List Char :=
  s.dropWhile pyIsSpaceChar

/-- Python `needle in hay` for strings (substring test). -/
def listContainsSub (needle : List Char) : List Char → Bool
  | [] => needle.isEmpty
  | c :: t => needle.isPrefixOf (c :: t) || listContainsSub needle t

/-- Decimal digits to a number (callers check `isDigit` first). -/
def natOfDigits (ds : List Char) : Nat :=
  ds.foldl (fun a c => a * 10 + (c.toNat - 48)) 0

/-- Parse a non-empty string of ASCII digits. -/
def digitsToNat? (s : List Char) : Option Nat :=
  if s.isEmpty then none
  else if s.all Char.isDigit then some (natOfDigits s) else none

/-! ## Calendar arithmetic

`datetime.strptime(deadline, "%Y-%m-%d")` and `strftime("%Y-%m-%d")` are
modelled with the standard civil-calendar/day-number conversion (proleptic
Gregorian, day 0 = 1970-01-01), which is what CPython's `datetime` uses. -/

def isLeapYear (y : Int) : Bool :=
  (y % 4 == 0 && y % 100 != 0) || y % 400 == 0

def daysInMonth (y m : Int) : Int :=
  if m == 2 then (if isLeapYear y then 29 else 28)
  else if m == 4 || m == 6 || m == 9 || m == 11 then 30
  else 31

/-- Day number of a civil date (days since 1970-01-01, negative before). -/
def daysFromCivil (y m d : Int) : Int :=
  let y1 := y - (if m <= 2 then 1 else 0)
  let era := Int.fdiv y1 400
  let yoe := y1 - era * 400
  let mp := (m + 9) % 12
  let doy := Int.fdiv (153 * mp + 2) 5 + d - 1
  let doe := yoe * 365 + Int.fdiv yoe 4 - Int.fdiv yoe 100 + doy
  era * 146097 + doe - 719468

/-- Civil date (year, month, day) of a day number. -/
def civilFromDays (day : Int) : Int × Int × Int :=
  let z := day + 719468
  let era := Int.fdiv z 146097
  let doe := z - era * 146097
  let yoe := Int.fdiv (doe - Int.fdiv doe 1460 + Int.fdiv doe 36524 - Int.fdiv doe 146096) 365
  let y := yoe + era * 400
  let doy := doe - (365 * yoe + Int.fdiv yoe 4 - Int.fdiv yoe 100)
  let mp := Int.fdiv (5 * doy + 2) 153
  let d := doy - Int.fdiv (153 * mp + 2) 5 + 1
  let m := mp + (if mp < 10 then 3 else -9)
  (y + (if m <= 2 then 1 else 0), m, d)

/-- Zero-padded decimal rendering (for `%Y`, `%m`, `%d`). -/
def padNum (width : Nat) (n : Int) : List Char :=
  let ds := (Nat.repr n.toNat).toList
  List.replicate (width - ds.length) '0' ++ ds

/-- `strftime("%Y-%m-%d")` of the datetime whose date part is `day`. -/
def formatDate (day : Int) : List Char :=
  match civilFromDays day with
  | (y, m, d) => padNum 4 y ++ ('-' :: (padNum 2 m ++ ('-' :: padNum 2 d)))

/-- The `%Y` group of CPython's `_strptime` regex for "%Y-%m-%d": exactly
four digits, converted by `int(...)`. -/
def parseYearGroup (ys : List Char) : Option Nat :=
  if ys.length = 4 then digitsToNat? ys else none

/-- The `%m` group: the regex alternatives `1[0-2]|0[1-9]|[1-9]` (all
ASCII), matched against a whole dash-delimited part. -/
def parseMonthGroup (ms : List Char) : Option Nat :=
  match ms with
  | [c] => if '1' ≤ c ∧ c ≤ '9' then some (c.toNat - 48) else none
  | [c1, c2] =>
    if c1 = '1' ∧ '0' ≤ c2 ∧ c2 ≤ '2' then some (10 + (c2.toNat - 48))
    else if c1 = '0' ∧ '1' ≤ c2 ∧ c2 ≤ '9' then some (c2.toNat - 48)
    else none
  | _ => none

/-- The `%d` group: the regex alternatives `3[01]|[12]\d|0[1-9]|[1-9]| [1-9]`
(a space-padded single day is accepted), matched against a whole
dash-delimited part. -/
def parseDayGroup (ds : List Char) : Option Nat :=
  match ds with
  | [c] => if '1' ≤ c ∧ c ≤ '9' then some (c.toNat - 48) else none
  | [c1, c2] =>
    if c1 = '3' ∧ '0' ≤ c2 ∧ c2 ≤ '1' then some (30 + (c2.toNat - 48))
    else if (c1 = '1' ∨ c1 = '2') ∧ '0' ≤ c2 ∧ c2 ≤ '9' then
      some ((c1.toNat - 48) * 10 + (c2.toNat - 48))
    else if c1 = '0' ∧ '1' ≤ c2 ∧ c2 ≤ '9' then some (c2.toNat - 48)
    else if c1 = ' ' ∧ '1' ≤ c2 ∧ c2 ≤ '9' then some (c2.toNat - 48)
    else none
  | _ => none

/-- `datetime.strptime(s, "%Y-%m-%d")` for strings of ASCII characters,
returning the day number of the parsed date, or `none` where CPython
raises `ValueError`.  The regex's two literal dashes cannot be consumed by
any group, so a full match is exactly a split into three dash-free parts,
each fully consumed by its group (the groups are followed by a literal
dash or by the unconverted-data check); `datetime`'s constructor then
validates year >= 1 (year <= 9999 is forced by the four-digit `%Y`) and
the day against the month's length, with leap years.  On non-ASCII input
CPython's `\d` also accepts other Unicode decimal digits (in the year, and
as the second character of a `[12]\d` day), a runtime-library behaviour;
the fallback-generator theorems therefore take the date parser as a
parameter, and this concrete parser instantiates their witnesses on ASCII
inputs. -/
def parseDateYMD (s : List Char) : Option Int :=
  match s.splitOn '-' with
  | [ys, ms, ds] =>
    match parseYearGroup ys, parseMonthGroup ms, parseDayGroup ds with
    | some y, some m, some d =>
      if 1 ≤ y ∧ Int.ofNat d ≤ daysInMonth (Int.ofNat y) (Int.ofNat m) then
        some (daysFromCivil (Int.ofNat y) (Int.ofNat m) (Int.ofNat d))
      else none
    | _, _, _ => none
  | _ => none

/-! ## JSON-like values (results of `json5.loads`) -/

inductive JVal where
  | null : JVal
  | boolean : Bool → JVal
  | num : Int → JVal
  | str : String → JVal
  | arr : List JVal → JVal
  | obj : List (String × JVal) → JVal

/-- Python dict lookup (first matching key; `json5` dicts have no duplicates). -/
def getKey : List (String × JVal) → String → Option JVal
  | [], _ => none
  | (k1, v) :: rest, key => if k1 = key then some v else getKey rest key

/-- Python dict assignment `d[key] = v`: replaces in place, or appends. -/
def setKey : List (String × JVal) → String → JVal → List (String × JVal)
  | [], key, v => [(key, v)]
  | (k1, v1) :: rest, key, v =>
    if k1 = key then (key, v) :: rest else (k1, v1) :: setKey rest key v

/-- Python `key in dict`. -/
def hasKey (kvs : List (String × JVal)) (key : String) : Bool :=
  (getKey kvs key).isSome

/-- Python `isinstance(v, list)`. -/
def isList : JVal → Bool
  | .arr _ => true
  | _ => false

/-- Python `isinstance(v, dict)`. -/
def isObj : JVal → Bool
  | .obj _ => true
  | _ => false

/-! ## Python dynamic-typing semantics of `in`, `[...]`, `[...] = ...`

`generate_task_plan` applies these to whatever `json5.loads` returned, so
their behaviour on non-dict values matters (line 141 and 143). -/

inductive PlanError where
  | apiError : String → PlanError
  | keyError : String → PlanError
  | typeError : String → PlanError

/-- Python `key in v` for a `str` key: key membership on dicts, element
equality on lists, substring test on strings, `TypeError` otherwise. -/
def pyContainsKey (key : String) : JVal → Except PlanError Bool
  | .obj kvs => .ok (hasKey kvs key)
  | .arr xs => .ok (xs.any fun v => match v with | .str s => decide (s = key) | _ => false)
  | .str s => .ok (listContainsSub key.toList s.toList)
  | _ => .error (.typeError "argument of type is not iterable")

/-- Python `v[key]` for a `str` key. -/
def pyGetItemStr (v : JVal) (key : String) : Except PlanError JVal :=
  match v with
  | .obj kvs =>
    match getKey kvs key with
    | some x => .ok x
    | none => .error (.keyError key)
  | _ => .error (.typeError "indices must be integers")

/-- Python `v[key] = x` for a `str` key. -/
def pySetItemStr (v : JVal) (key : String) (x : JVal) : Except PlanError JVal :=
  match v with
  | .obj kvs => .ok (.obj (setKey kvs key x))
  | _ => .error (.typeError "object does not support item assignment")

/-- Lines 140-145 of `llm_handler.py`:
`if "tasks" not in result or not isinstance(result["tasks"], list):
result["tasks"] = fallback`, then `return result`.  The `or` short-circuits,
so `result["tasks"]` is only evaluated when the membership test was true. -/
def validate_tasks (fb : List JVal) (result : JVal) : Except PlanError JVal :=
  match pyContainsKey "tasks" result with
  | .error e => .error e
  | .ok member =>
    if !member then
      pySetItemStr result "tasks" (.arr fb)
    else
      match pyGetItemStr result "tasks" with
      | .error e => .error e
      | .ok t =>
        if !(isList t) then pySetItemStr result "tasks" (.arr fb) else .ok result

/-! ## Fallback task generation (lines 150-191) -/

/-- `(deadline_date - start_date).days`: `deadline_date` is midnight of the
parsed day, `start_date` is `datetime.now()` (`nowSec` seconds since epoch);
`timedelta.days` floors. -/
def fallbackDeltaDays (deadlineDay nowSec : Int) : Int :=
  Int.fdiv (deadlineDay * 86400 - nowSec) 86400

/-- Line 155: `total_days = max(5, (deadline_date - start_date).days)`. -/
def fallbackTotalDays (deadlineDay nowSec : Int) : Int :=
  max 5 (fallbackDeltaDays deadlineDay nowSec)

/-- Line 156: `task_duration = max(1, total_days // 5)`. -/
def fallbackTaskDuration (deadlineDay nowSec : Int) : Int :=
  max 1 (Int.fdiv (fallbackTotalDays deadlineDay nowSec) 5)

/-- Date part of `start_date = datetime.now()`. -/
def fallbackStartDay (nowSec : Int) : Int :=
  Int.fdiv nowSec 86400

/-- Lines 158-189: the three-task list built when the deadline parsed.
`start_date + timedelta(days=k)` keeps the time of day, so its
`strftime("%Y-%m-%d")` is the date part of `now` plus `k`. -/
def fallbackThreeTasks (goal : String) (deadlineDay nowSec : Int) : List JVal :=
  let task_duration := fallbackTaskDuration deadlineDay nowSec
  let d0 := fallbackStartDay nowSec
  [ .obj [("name", .str "Research & Planning"),
      ("description", .str ("Research and create a detailed plan for: " ++ goal)),
      ("duration", .str (toString task_duration ++ " days")),
      ("start_date", .str (formatDate d0).asString),
      ("end_date", .str (formatDate (d0 + task_duration)).asString),
      ("dependencies", .arr []),
      ("priority", .str "high"),
      ("category", .str "Planning")],
    .obj [("name", .str "Implementation"),
      ("description", .str "Develop and integrate the main components."),
      ("duration", .str (toString (task_duration * 2) ++ " days")),
      ("start_date", .str (formatDate (d0 + task_duration)).asString),
      ("end_date", .str (formatDate (d0 + task_duration * 3)).asString),
      ("dependencies", .arr [.str "Research & Planning"]),
      ("priority", .str "high"),
      ("category", .str "Development")],
    .obj [("name", .str "Testing & Review"),
      ("description", .str "Test features, fix bugs, and finalize project."),
      ("duration", .str (toString task_duration ++ " days")),
      ("start_date", .str (formatDate (d0 + task_duration * 3)).asString),
      ("end_date", .str (formatDate deadlineDay).asString),
      ("dependencies", .arr [.str "Implementation"]),
      ("priority", .str "medium"),
      ("category", .str "Testing")] ]

/-- Line 191: the terminal fallback returned by the `except` clause. -/
def projectPlanningPlaceholder : JVal :=
  .obj [("name", .str "Project Planning"),
    ("description", .str "Basic fallback"),
    ("duration", .str "2 days")]

/-- `generate_fallback_tasks` (lines 150-191) with the standard-library
date parsing of line 153 (`datetime.strptime(deadline, "%Y-%m-%d")`) made
an explicit boundary parameter, like `json5.loads`: `strptime deadline` is
`some day` when the library parses the deadline to that date, `none` when
it raises.  With unbounded integer dates, `strptime` is the `try` block's
only failing operation; any exception lands in the `except` clause of
line 190, which returns the placeholder. -/
def generate_fallback_tasks_with (strptime : String → Option Int)
    (goal deadline : String) (nowSec : Int) : List JVal :=
  match strptime deadline with
  | some deadlineDay => fallbackThreeTasks goal deadlineDay nowSec
  | none => [projectPlanningPlaceholder]

/-- The generator instantiated with the concrete ASCII-exact parser; used
for the pipeline's concrete runs. -/
def generate_fallback_tasks (goal deadline : String) (nowSec : Int) : List JVal :=
  generate_fallback_tasks_with (fun dl => parseDateYMD dl.toList) goal deadline nowSec

/-- The dict literal returned on a parse failure (lines 132-138). -/
def fallbackPlanObj (goal deadline : String) (nowSec : Int) : JVal :=
  .obj [("tasks", .arr (generate_fallback_tasks goal deadline nowSec)),
    ("critical_path", .arr []),
    ("estimated_total_time", .str "Unknown"),
    ("risk_factors", .arr [.str "Invalid LLM response"]),
    ("recommendations", .arr [.str "Please retry or verify input."])]

/-- Modelled from the spec, for comparison against the source-derived
`generate_fallback_tasks` (claim C3): three tasks named
"Research & Planning", "Implementation", "Testing & Review", spanning
[now, now+u], [now+u, now+3u], [now+3u, deadline], priorities
high/high/medium, chained dependencies by name, where
u = max(1, max(5, days from now to deadline) // 5). -/
def specFallbackTasks (goal : String) (deadlineDay nowSec : Int) : List JVal :=
  let u := max 1 (Int.fdiv (max 5 (Int.fdiv (deadlineDay * 86400 - nowSec) 86400)) 5)
  let d0 := Int.fdiv nowSec 86400
  [ .obj [("name", .str "Research & Planning"),
      ("description", .str ("Research and create a detailed plan for: " ++ goal)),
      ("duration", .str (toString u ++ " days")),
      ("start_date", .str (formatDate d0).asString),
      ("end_date", .str (formatDate (d0 + u)).asString),
      ("dependencies", .arr []),
      ("priority", .str "high"),
      ("category", .str "Planning")],
    .obj [("name", .str "Implementation"),
      ("description", .str "Develop and integrate the main components."),
      ("duration", .str (toString (u * 2) ++ " days")),
      ("start_date", .str (formatDate (d0 + u)).asString),
      ("end_date", .str (formatDate (d0 + u * 3)).asString),
      ("dependencies", .arr [.str "Research & Planning"]),
      ("priority", .str "high"),
      ("category", .str "Development")],
    .obj [("name", .str "Testing & Review"),
      ("description", .str "Test features, fix bugs, and finalize project."),
      ("duration", .str (toString u ++ " days")),
      ("start_date", .str (formatDate (d0 + u * 3)).asString),
      ("end_date", .str (formatDate deadlineDay).asString),
      ("dependencies", .arr [.str "Implementation"]),
      ("priority", .str "medium"),
      ("category", .str "Testing")] ]

/-! ## Text cleanup (lines 110-123) -/

/-- Line 117: `re.sub(r"^` ` `(json)?|` ` `$", "", text, flags=re.DOTALL)`.
The first alternative matches only at the start of the string (a leading
fence, with or without the `json` tag); the second matches a fence at the
end of the string or immediately before a single final newline (`$`). -/
def stripFences (s : List Char) : List Char :=
  let s1 :=
    if ("```json".toList).isPrefixOf s then s.drop 7
    else if ("```".toList).isPrefixOf s then s.drop 3
    else s
  if ("```".toList).isSuffixOf s1 then s1.take (s1.length - 3)
  else if ("```\n".toList).isSuffixOf s1 then s1.take (s1.length - 4) ++ ['\n']
  else s1

/-- Python `str.find(c)`: first index or -1. -/
def pyFind (c : Char) (s : List Char) : Int :=
  match s.findIdx? (fun x => x == c) with
  | some i => Int.ofNat i
  | none => -1

/-- Python `str.rfind(c)`: last index or -1. -/
def pyRfind (c : Char) (s : List Char) : Int :=
  match s.reverse.findIdx? (fun x => x == c) with
  | some i => Int.ofNat (s.length - 1 - i)
  | none => -1

/-- Lines 119-123:
`start_idx = text.find("\x7b"); end_idx = text.rfind("\x7d") + 1;
if start_idx != -1 and end_idx != -1: text = text[start_idx:end_idx]`.
Note `end_idx` is `rfind + 1`, so the `end_idx != -1` test compares
`rfind` against -2 and is true for every input. -/
def sliceBraces (s : List Char) : List Char :=
  let start_idx := pyFind '\x7b' s
  let end_idx := pyRfind '\x7d' s + 1
  if start_idx ≠ -1 ∧ end_idx ≠ -1 then
    (s.take end_idx.toNat).drop start_idx.toNat
  else s

/-- Lines 110-123 applied to the raw completion text: the `.strip()` of
line 114, then fence removal and `.strip()` (line 117), then the brace
slice (lines 119-123). -/
def cleanText (raw : List Char) : List Char :=
  sliceBraces (pyStrip (stripFences (pyStrip raw)))

/-! ## Model invocation (lines 72-107) -/

/-- A chat completion: the contents of `choices[*].message["content"]`. -/
structure Response where
  choices : List String

/-- Lines 110-114: `response.choices[0].message["content"] if ... else ""`
(the `.strip()` is applied afterwards, in `cleanText`). -/
def extractContent (r : Response) : List Char :=
  match r.choices with
  | c :: _ => c.toList
  | [] => []

/-- The retry loop of `query_hf_api` (lines 74-89) over the attempt
indices `range(max_retries)`.  The second component records the
`time.sleep(5)` delays, in order.  `api` is the external
`hf_client.chat.completions.create` collaborator: the outcome of each
attempt. -/
def queryLoop (api : Nat → Except String Response) (maxRetries : Nat) :
    List Nat → Except String Response × List Nat
  | [] => (.error "loop exhausted", [])
  | attempt :: rest =>
    match api attempt with
    | .ok r => (.ok r, [])
    | .error e =>
      if attempt < maxRetries - 1 then
        ((queryLoop api maxRetries rest).1, 5 :: (queryLoop api maxRetries rest).2)
      else
        (.error ("API request failed after " ++ toString maxRetries ++ " attempts: " ++ e), [])

/-- `query_hf_api` (lines 72-89); the code always calls it with the
default `max_retries = 3`. -/
def query_hf_api (api : Nat → Except String Response) (maxRetries : Nat) :
    Except String Response × List Nat :=
  queryLoop api maxRetries (List.range maxRetries)

/-- Lines 101-107 as an accessor: the response `generate_task_plan` goes
on to normalise, if either model chain produced one. -/
def tryPrimaryThenBackup (primaryApi backupApi : Nat → Except String Response) :
    Option Response :=
  match (query_hf_api primaryApi 3).1 with
  | .ok r => some r
  | .error _ =>
    match (query_hf_api backupApi 3).1 with
    | .ok r => some r
    | .error _ => none

/-! ## The full pipeline (lines 94-145) -/

/-- Lines 109-145 of `generate_task_plan`, applied to the raw completion
text: cleanup, `json5.loads` (the external tolerant parser, passed as
`loads`; the `try`/`except` of lines 126-138 catches any parse error and
returns the fallback dict literal), then the structure validation of
lines 140-145. -/
def normalize_text (loads : List Char → Except String JVal)
    (goal deadline : String) (nowSec : Int) (raw : List Char) :
    Except PlanError JVal :=
  match loads (cleanText raw) with
  | .error _ => .ok (fallbackPlanObj goal deadline nowSec)
  | .ok result => validate_tasks (generate_fallback_tasks goal deadline nowSec) result

/-- `generate_task_plan` (lines 94-145): try the primary model (3 attempts),
on total failure try the backup model (3 attempts, line 107, uncaught), then
normalise the obtained completion text.  The second component collects the
`time.sleep(5)` delays of both retry loops in order. -/
def generate_task_plan (primaryApi backupApi : Nat → Except String Response)
    (loads : List Char → Except String JVal)
    (goal deadline : String) (nowSec : Int) :
    Except PlanError JVal × List Nat :=
  match (query_hf_api primaryApi 3).1 with
  | .ok response =>
    (normalize_text loads goal deadline nowSec (extractContent response),
      (query_hf_api primaryApi 3).2)
  | .error _ =>
    match (query_hf_api backupApi 3).1 with
    | .ok response =>
      (normalize_text loads goal deadline nowSec (extractContent response),
        (query_hf_api primaryApi 3).2 ++ (query_hf_api backupApi 3).2)
    | .error e =>
      (.error (.apiError e),
        (query_hf_api primaryApi 3).2 ++ (query_hf_api backupApi 3).2)

/-! ## Accessors used in theorem statements -/

/-- The `tasks` field of a returned plan dict, when it holds a list. -/
def jvalTasks? (v : JVal) : Option (List JVal) :=
  match v with
  | .obj kvs =>
    match getKey kvs "tasks" with
    | some (.arr ts) => some ts
    | _ => none
  | _ => none

/-- The `tasks` list the parser delivered for a given cleaned text. -/
def parsedTasks? (loads : List Char → Except String JVal) (txt : List Char) :
    Option (List JVal) :=
  match loads txt with
  | .ok v => jvalTasks? v
  | .error _ => none

/-- The `risk_factors` field of a successfully returned plan dict. -/
def planRiskFactors? (r : Except PlanError JVal) : Option JVal :=
  match r with
  | .ok (.obj kvs) => getKey kvs "risk_factors"
  | _ => none

def exceptIsError (x : Except String Response) : Bool :=
  match x with
  | .error _ => true
  | .ok _ => false

def exceptIsOk (x : Except PlanError JVal) : Bool :=
  match x with
  | .ok _ => true
  | .error _ => false

/-- The message of a failed attempt (used to spell out the propagated
exception text). -/
def errMsg (x : Except String Response) : String :=
  match x with
  | .error e => e
  | .ok _ => ""

/-- All three attempts of one model's retry loop failed. -/
def allAttemptsFail (api : Nat → Except String Response) : Bool :=
  exceptIsError (api 0) && exceptIsError (api 1) && exceptIsError (api 2)

/-- The result is a propagated invocation failure (not a plan, not a
normalization `TypeError`). -/
def isApiError (r : Except PlanError JVal) : Bool :=
  match r with
  | .error (.apiError _) => true
  | _ => false

/-! ## A concrete stand-in for `json5.loads`

The claim theorems quantify over the parser (`loads`), since `json5` is a
third-party library.  Witnesses and counterexamples instantiate `loads`
with this small recursive-descent parser, which agrees with `json5.loads`
on the concrete inputs they use (it accepts standard JSON plus trailing
commas in arrays and objects; strings without escapes; integers). -/

inductive PMode where
  | value : PMode
  | elements : PMode
  | members : PMode

inductive PRes where
  | v : JVal → PRes
  | items : List JVal → PRes
  | fields : List (String × JVal) → PRes

/-- The characters of a string literal after its opening quote, and the
remainder after the closing quote (no escape sequences). -/
def takeStringChars : List Char → Option (List Char × List Char)
  | [] => none
  | c :: rest =>
    if c == '\"' then some ([], rest)
    else (takeStringChars rest).map (fun p => (c :: p.1, p.2))

/-- The longest leading run of digits, and the rest. -/
def digitsSpan : List Char → List Char × List Char
  | [] => ([], [])
  | c :: rest =>
    if c.isDigit then ((c :: (digitsSpan rest).1), (digitsSpan rest).2)
    else ([], c :: rest)

/-- An optionally-signed integer literal. -/
def parseNumTok (s : List Char) : Option (Int × List Char) :=
  match s with
  | '-' :: rest =>
    if (digitsSpan rest).1.isEmpty then none
    else some (-(Int.ofNat (natOfDigits (digitsSpan rest).1)), (digitsSpan rest).2)
  | _ =>
    if (digitsSpan s).1.isEmpty then none
    else some (Int.ofNat (natOfDigits (digitsSpan s).1), (digitsSpan s).2)

/-- Fuel-bounded recursive descent: a value, the elements after `[`, or the
members after `\x7b`; trailing commas allowed before `]` and `\x7d`. -/
def parseCore (fuel : Nat) (mode : PMode) (s0 : List Char) : Option (PRes × List Char) :=
  match fuel with
  | 0 => none
  | f + 1 =>
    match mode with
    | .value =>
      match skipWs s0 with
      | [] => none
      | c :: rest =>
        if c == '\x7b' then
          match parseCore f .members rest with
          | some (.fields kvs, s1) => some (.v (.obj kvs), s1)
          | _ => none
        else if c == '[' then
          match parseCore f .elements rest with
          | some (.items xs, s1) => some (.v (.arr xs), s1)
          | _ => none
        else if c == '\"' then
          match takeStringChars rest with
          | some (cs, s1) => some (.v (.str cs.asString), s1)
          | none => none
        else if c == 't' then
          if ("rue".toList).isPrefixOf rest then some (.v (.boolean true), rest.drop 3) else none
        else if c == 'f' then
          if ("alse".toList).isPrefixOf rest then some (.v (.boolean false), rest.drop 4) else none
        else if c == 'n' then
          if ("ull".toList).isPrefixOf rest then some (.v .null, rest.drop 3) else none
        else
          match parseNumTok (c :: rest) with
          | some (k, s1) => some (.v (.num k), s1)
          | none => none
    | .elements =>
      match skipWs s0 with
      | ']' :: rest => some (.items [], rest)
      | s =>
        match parseCore f .value s with
        | some (.v x, s1) =>
          (match skipWs s1 with
          | ',' :: rest2 =>
            match parseCore f .elements rest2 with
            | some (.items xs, s2) => some (.items (x :: xs), s2)
            | _ => none
          | ']' :: rest2 => some (.items [x], rest2)
          | _ => none)
        | _ => none
    | .members =>
      match skipWs s0 with
      | '\x7d' :: rest => some (.fields [], rest)
      | '\"' :: rest =>
        (match takeStringChars rest with
        | some (cs, s1) =>
          (match skipWs s1 with
          | ':' :: s2 =>
            (match parseCore f .value s2 with
            | some (.v x, s3) =>
              (match skipWs s3 with
              | ',' :: rest2 =>
                (match parseCore f .members rest2 with
                | some (.fields kvs, s4) => some (.fields ((cs.asString, x) :: kvs), s4)
                | _ => none)
              | '\x7d' :: rest2 => some (.fields [(cs.asString, x)], rest2)
              | _ => none)
            | _ => none)
          | _ => none)
        | none => none)
      | _ => none

/-- The concrete parser: a single value followed only by whitespace. -/
def jsonLoads (s : List Char) : Except String JVal :=
  match parseCore (2 * s.length + 2) .value s with
  | some (.v x, rest) =>
    if (skipWs rest).isEmpty then .ok x else .error "Extra data after JSON value"
  | _ => .error "No valid JSON value could be decoded"

/-! ## Concrete collaborators for witnesses -/

/-- A model endpoint that answers every attempt with the given text. -/
def okApi (text : String) : Nat → Except String Response :=
  fun _ => .ok ⟨[text]⟩

/-- A model endpoint that fails every attempt with the given message. -/
def failApi (msg : String) : Nat → Except String Response :=
  fun _ => .error msg

/-! ## Shared lemmas -/

theorem getKey_setKey_self (kvs : List (String × JVal)) (k : String) (v : JVal) :
    getKey (setKey kvs k v) k = some v := by
  induction kvs with
  | nil => simp [getKey, setKey]
  | cons kv rest ih =>
    obtain ⟨k1, v1⟩ := kv
    by_cases h : k1 = k <;> simp [getKey, setKey, h, ih]

theorem getKey_setKey_ne (kvs : List (String × JVal)) (k : String) (v : JVal)
    (k2 : String) (h : k2 ≠ k) :
    getKey (setKey kvs k v) k2 = getKey kvs k2 := by
  have hk : ¬(k = k2) := fun hh => h hh.symm
  induction kvs with
  | nil => simp [getKey, setKey, hk]
  | cons kv rest ih =>
    obtain ⟨k1, v1⟩ := kv
    by_cases h1 : k1 = k
    · subst h1
      simp [getKey, setKey, hk]
    · by_cases h2 : k1 = k2 <;> simp [getKey, setKey, h, h1, h2, ih]

theorem filter_setKey (kvs : List (String × JVal)) (k : String) (v : JVal) :
    (setKey kvs k v).filter (fun kv => ! decide (kv.1 = k))
      = kvs.filter (fun kv => ! decide (kv.1 = k)) := by
  induction kvs with
  | nil => simp [setKey]
  | cons kv rest ih =>
    obtain ⟨k1, v1⟩ := kv
    by_cases h : k1 = k <;> simp [setKey, h, ih]

theorem fallback_tasks_ne_nil (g dl : String) (n : Int) :
    generate_fallback_tasks g dl n ≠ [] := by
  unfold generate_fallback_tasks generate_fallback_tasks_with
  dsimp only
  cases parseDateYMD dl.toList <;> simp [fallbackThreeTasks, projectPlanningPlaceholder]

theorem validate_tasks_obj_ok (fb : List JVal) (kvs : List (String × JVal)) :
    exceptIsOk (validate_tasks fb (.obj kvs)) = true := by
  unfold validate_tasks pyContainsKey pyGetItemStr pySetItemStr
  cases h : getKey kvs "tasks" with
  | none => simp [hasKey, h, exceptIsOk]
  | some t => cases ht : isList t <;> simp [hasKey, h, ht, exceptIsOk]

theorem normalize_text_not_apiError (loads : List Char → Except String JVal)
    (g dl : String) (n : Int) (raw : List Char) :
    isApiError (normalize_text loads g dl n raw) = false := by
  unfold normalize_text
  cases hl : loads (cleanText raw) with
  | error e => simp [isApiError]
  | ok v =>
    cases v with
    | obj kvs =>
      unfold validate_tasks pyContainsKey pyGetItemStr pySetItemStr
      cases h : getKey kvs "tasks" with
      | none => simp [hasKey, h, isApiError]
      | some t => cases ht : isList t <;> simp [hasKey, h, ht, isApiError]
    | arr xs =>
      unfold validate_tasks pyContainsKey pyGetItemStr pySetItemStr
      dsimp only
      split_ifs <;> rfl
    | str s =>
      unfold validate_tasks pyContainsKey pyGetItemStr pySetItemStr
      dsimp only
      split_ifs <;> rfl
    | null => rfl
    | boolean b => rfl
    | num i => rfl

theorem validate_tasks_nonobj_err (fb : List JVal) (v : JVal) (h : isObj v = false) :
    exceptIsOk (validate_tasks fb v) = false := by
  cases v with
  | obj kvs => simp [isObj] at h
  | arr xs =>
    unfold validate_tasks pyContainsKey pyGetItemStr pySetItemStr
    dsimp only
    split_ifs <;> rfl
  | str s =>
    unfold validate_tasks pyContainsKey pyGetItemStr pySetItemStr
    dsimp only
    split_ifs <;> rfl
  | null => rfl
  | boolean b => rfl
  | num i => rfl

theorem query3_characterization (api : Nat → Except String Response) :
    exceptIsError (query_hf_api api 3).1 = allAttemptsFail api
    ∧ (allAttemptsFail api = true →
        query_hf_api api 3 =
          (.error ("API request failed after 3 attempts: " ++ errMsg (api 2)), [5, 5])) := by
  have hr : List.range 3 = [0, 1, 2] := rfl
  rcases h0 : api 0 with e0 | r0 <;> rcases h1 : api 1 with e1 | r1 <;>
    rcases h2 : api 2 with e2 | r2 <;>
    (simp [query_hf_api, hr, queryLoop, h0, h1, h2, allAttemptsFail, exceptIsError, errMsg];
      try rfl)

theorem generate_task_plan_fst_of_obtained
    (pApi bApi : Nat → Except String Response) (loads : List Char → Except String JVal)
    (g dl : String) (n : Int) (r : Response)
    (h : tryPrimaryThenBackup pApi bApi = some r) :
    (generate_task_plan pApi bApi loads g dl n).1
      = normalize_text loads g dl n (extractContent r) := by
  unfold tryPrimaryThenBackup at h
  unfold generate_task_plan
  rcases hp : (query_hf_api pApi 3).1 with e | rp
  · rw [hp] at h
    rcases hb : (query_hf_api bApi 3).1 with e2 | rb
    · rw [hb] at h; simp at h
    · rw [hb] at h
      simp at h
      subst h
      simp [hp, hb]
  · rw [hp] at h
    simp at h
    subst h
    simp [hp]

/-! ## Claim theorems -/

/-- C3: for every (goal, deadline, now) triple whose deadline the
standard-library date parser accepts as YYYY-MM-DD, the Fallback Plan
Generator produces exactly the three tasks
"Research & Planning" ([now, now+u], high, no dependencies),
"Implementation" ([now+u, now+3u], high, depends on "Research & Planning"),
"Testing & Review" ([now+3u, deadline], medium, depends on "Implementation"),
with u = max(1, max(5, days from now to deadline) // 5), as spelled out by
the spec-side `specFallbackTasks`.  The theorem quantifies over the date
parser — `strptime` is a standard-library boundary whose exact accept set
is runtime-dependent (Unicode digit forms) — so it holds in particular for
the runtime's parser; the witness instantiates it with the ASCII-exact
`parseDateYMD`.  Determinism is inherent: the embedding is a pure function
of the triple, so two runs on the same triple are definitionally equal. -/
theorem c3_fallback_three_tasks (strptime : String → Option Int)
    (goal deadline : String) (nowSec deadlineDay : Int)
    (hparse : strptime deadline = some deadlineDay) :
    generate_fallback_tasks_with strptime goal deadline nowSec
      = specFallbackTasks goal deadlineDay nowSec := by
  unfold generate_fallback_tasks_with
  rw [hparse]
  rfl

/-- Witness for C3 at goal "ship v1", deadline "2026-01-01", now = epoch,
with the concrete ASCII-exact parser. -/
theorem c3_fallback_three_tasks_witness :
    (fun dl : String => parseDateYMD dl.toList) "2026-01-01" = some 20454
    ∧ generate_fallback_tasks_with (fun dl => parseDateYMD dl.toList) "ship v1" "2026-01-01" 0
        = specFallbackTasks "ship v1" 20454 0 :=
  ⟨rfl,
    c3_fallback_three_tasks (fun dl => parseDateYMD dl.toList) "ship v1" "2026-01-01" 0 20454 rfl⟩

/-- C6: the floors of lines 155-156 hold for every deadline day and every
clock value (in particular a deadline equal to "now" or in the past):
`total_days = max(5, (deadline - now).days)` is at least 5 and
`task_duration = max(1, total_days // 5)` is at least 1, over exact
integer day arithmetic. -/
theorem c6_floors (deadlineDay nowSec : Int) :
    5 ≤ fallbackTotalDays deadlineDay nowSec ∧ 1 ≤ fallbackTaskDuration deadlineDay nowSec :=
  ⟨le_max_left 5 _, le_max_left 1 _⟩

/-- C7: the Fallback Plan Generator is a total function of its inputs (the
`except` clause of line 190 catches every exception of the `try` block, so
it never raises), and whenever the standard-library date parser rejects the
deadline string it returns exactly the single "Project Planning"
placeholder, which carries no `start_date` and no `end_date` field.  The
theorem quantifies over the date parser (a standard-library boundary with a
runtime-dependent accept set), so it holds in particular for the runtime's
`strptime`; the witness instantiates it with the ASCII-exact
`parseDateYMD`. -/
theorem c7_unparseable_deadline (strptime : String → Option Int)
    (goal deadline : String) (nowSec : Int)
    (h : strptime deadline = none) :
    generate_fallback_tasks_with strptime goal deadline nowSec
      = [.obj [("name", .str "Project Planning"),
          ("description", .str "Basic fallback"),
          ("duration", .str "2 days")]]
    ∧ getKey [("name", JVal.str "Project Planning"),
        ("description", JVal.str "Basic fallback"),
        ("duration", JVal.str "2 days")] "start_date" = none
    ∧ getKey [("name", JVal.str "Project Planning"),
        ("description", JVal.str "Basic fallback"),
        ("duration", JVal.str "2 days")] "end_date" = none := by
  unfold generate_fallback_tasks_with
  rw [h]
  exact ⟨rfl, rfl, rfl⟩

/-- Witness for C7 at the unparseable deadline "soon", with the concrete
ASCII-exact parser. -/
theorem c7_unparseable_deadline_witness :
    (fun dl : String => parseDateYMD dl.toList) "soon" = none
    ∧ (generate_fallback_tasks_with (fun dl => parseDateYMD dl.toList) "g" "soon" 0
        = [.obj [("name", .str "Project Planning"),
            ("description", .str "Basic fallback"),
            ("duration", .str "2 days")]]
      ∧ getKey [("name", JVal.str "Project Planning"),
          ("description", JVal.str "Basic fallback"),
          ("duration", JVal.str "2 days")] "start_date" = none
      ∧ getKey [("name", JVal.str "Project Planning"),
          ("description", JVal.str "Basic fallback"),
          ("duration", JVal.str "2 days")] "end_date" = none) :=
  ⟨rfl, c7_unparseable_deadline (fun dl => parseDateYMD dl.toList) "g" "soon" 0 rfl⟩

/-- C8 (code bug): the claim says the brace-slicing step leaves the text
unchanged when `\x7d` is absent, but because line 121 computes
`end_idx = rfind("\x7d") + 1` the guard `end_idx != -1` on line 122 is
vacuously true, so a text containing `\x7b` but no `\x7d` is sliced to
`text[start_idx:0]`, the empty string: at the failing input "\x7babc" the
extraction step returns "" instead of leaving the text unchanged. -/
theorem c8_slices_without_closing_brace :
    sliceBraces ("\x7babc".toList) = [] ∧ "\x7babc".toList ≠ [] := by
  exact ⟨rfl, by decide⟩

/-- C4: for every obtained completion text on which the tolerant parse
raises (lines 126-131), `generate_task_plan` returns exactly the dict of
lines 132-138: `tasks` is the Fallback Plan Generator's output,
`critical_path` is empty, `estimated_total_time` is "Unknown", and there is
exactly one risk factor noting the invalid response and exactly one
recommendation to retry. -/
theorem c4_parse_failure_plan
    (pApi bApi : Nat → Except String Response) (loads : List Char → Except String JVal)
    (g dl : String) (n : Int) (r : Response) (e : String)
    (hobt : tryPrimaryThenBackup pApi bApi = some r)
    (hparse : loads (cleanText (extractContent r)) = .error e) :
    (generate_task_plan pApi bApi loads g dl n).1
      = .ok (.obj [("tasks", .arr (generate_fallback_tasks g dl n)),
          ("critical_path", .arr []),
          ("estimated_total_time", .str "Unknown"),
          ("risk_factors", .arr [.str "Invalid LLM response"]),
          ("recommendations", .arr [.str "Please retry or verify input."])]) := by
  rw [generate_task_plan_fst_of_obtained pApi bApi loads g dl n r hobt]
  unfold normalize_text
  rw [hparse]
  rfl

/-- Witness for C4: a completion with no JSON at all. -/
theorem c4_parse_failure_plan_witness :
    tryPrimaryThenBackup (okApi "no json at all") (okApi "x") = some (Response.mk ["no json at all"])
    ∧ jsonLoads (cleanText (extractContent (Response.mk ["no json at all"])))
        = .error "No valid JSON value could be decoded"
    ∧ (generate_task_plan (okApi "no json at all") (okApi "x") jsonLoads "g" "2026-05-01" 0).1
        = .ok (.obj [("tasks", .arr (generate_fallback_tasks "g" "2026-05-01" 0)),
            ("critical_path", .arr []),
            ("estimated_total_time", .str "Unknown"),
            ("risk_factors", .arr [.str "Invalid LLM response"]),
            ("recommendations", .arr [.str "Please retry or verify input."])]) :=
  ⟨rfl, rfl,
    c4_parse_failure_plan (okApi "no json at all") (okApi "x") jsonLoads "g" "2026-05-01" 0
      (Response.mk ["no json at all"]) "No valid JSON value could be decoded" rfl rfl⟩

/-- C5: when the parse succeeds but the object lacks a `tasks` field (or its
`tasks` is not a list), `generate_task_plan` returns that very object with
`tasks` set to the Fallback Plan Generator's output (Python dict assignment,
line 143) and every other top-level field untouched: looking up `tasks` in
the result yields the fallback list, and the result restricted to the other
keys is exactly the parsed object restricted to the other keys. -/
theorem c5_frame_missing_tasks
    (pApi bApi : Nat → Except String Response) (loads : List Char → Except String JVal)
    (g dl : String) (n : Int) (r : Response) (kvs : List (String × JVal))
    (hobt : tryPrimaryThenBackup pApi bApi = some r)
    (hparse : loads (cleanText (extractContent r)) = .ok (.obj kvs))
    (hbad : getKey kvs "tasks" = none
      ∨ ∃ t, getKey kvs "tasks" = some t ∧ isList t = false) :
    (generate_task_plan pApi bApi loads g dl n).1
        = .ok (.obj (setKey kvs "tasks" (.arr (generate_fallback_tasks g dl n))))
      ∧ getKey (setKey kvs "tasks" (.arr (generate_fallback_tasks g dl n))) "tasks"
          = some (.arr (generate_fallback_tasks g dl n))
      ∧ (setKey kvs "tasks" (.arr (generate_fallback_tasks g dl n))).filter
            (fun kv => ! decide (kv.1 = "tasks"))
          = kvs.filter (fun kv => ! decide (kv.1 = "tasks")) := by
  refine ⟨?_, getKey_setKey_self _ _ _, filter_setKey _ _ _⟩
  rw [generate_task_plan_fst_of_obtained pApi bApi loads g dl n r hobt]
  unfold normalize_text
  rw [hparse]
  unfold validate_tasks pyContainsKey pyGetItemStr pySetItemStr
  rcases hbad with hnone | ⟨t, ht, hlist⟩
  · simp [hasKey, hnone]
  · simp [hasKey, ht, hlist]

/-- Witness for C5: a parsed object carrying only `critical_path` and
`recommendations`. -/
theorem c5_frame_missing_tasks_witness :
    jsonLoads (cleanText (extractContent
        (Response.mk ["\x7b\"critical_path\": [\"A\"], \"recommendations\": [\"B\"]\x7d"])))
      = .ok (.obj [("critical_path", .arr [.str "A"]), ("recommendations", .arr [.str "B"])])
    ∧ ((generate_task_plan (okApi "\x7b\"critical_path\": [\"A\"], \"recommendations\": [\"B\"]\x7d")
          (okApi "x") jsonLoads "g" "2026-02-01" 0).1
        = .ok (.obj (setKey [("critical_path", .arr [.str "A"]), ("recommendations", .arr [.str "B"])]
            "tasks" (.arr (generate_fallback_tasks "g" "2026-02-01" 0))))
      ∧ getKey (setKey [("critical_path", .arr [.str "A"]), ("recommendations", .arr [.str "B"])]
            "tasks" (.arr (generate_fallback_tasks "g" "2026-02-01" 0))) "tasks"
          = some (.arr (generate_fallback_tasks "g" "2026-02-01" 0))
      ∧ (setKey [("critical_path", .arr [.str "A"]), ("recommendations", .arr [.str "B"])]
            "tasks" (.arr (generate_fallback_tasks "g" "2026-02-01" 0))).filter
            (fun kv => ! decide (kv.1 = "tasks"))
          = [(("critical_path" : String), JVal.arr [.str "A"]),
              (("recommendations" : String), JVal.arr [.str "B"])].filter
              (fun kv => ! decide (kv.1 = "tasks"))) :=
  ⟨rfl,
    c5_frame_missing_tasks (okApi "\x7b\"critical_path\": [\"A\"], \"recommendations\": [\"B\"]\x7d")
      (okApi "x") jsonLoads "g" "2026-02-01" 0
      (Response.mk ["\x7b\"critical_path\": [\"A\"], \"recommendations\": [\"B\"]\x7d"])
      [("critical_path", .arr [.str "A"]), ("recommendations", .arr [.str "B"])]
      rfl rfl (Or.inl rfl)⟩

/-- C2 counterexample: the claim says the normalization stage never raises
on any completion text, but a completion that parses to a JSON value that
is not a dict crashes the structure check of lines 141-143: `json5.loads`
maps "[1, 2]" to a list, `"tasks" not in [1, 2]` is true, and
`result["tasks"] = ...` on a list with a string index raises `TypeError`,
which `generate_task_plan` does not catch. -/
theorem c2_counterexample :
    normalize_text jsonLoads "g" "2026-01-01" 0 ("[1, 2]".toList)
      = .error (.typeError "object does not support item assignment") := rfl

/-- C2 amended: for every completion text whose tolerant parse either
raises or yields a dict, the normalization stage of `generate_task_plan`
never raises and a plan dict is returned (fallback tasks are substituted on
parse failure per C4 and on a missing/non-list `tasks` field per C5); a
completion parsing to a non-dict value (list, string, number, boolean,
null) instead raises a `TypeError`. -/
theorem c2_amended_no_raise (loads : List Char → Except String JVal)
    (g dl : String) (n : Int) (raw : List Char)
    (h : (∃ e, loads (cleanText raw) = .error e)
      ∨ ∃ kvs, loads (cleanText raw) = .ok (.obj kvs)) :
    exceptIsOk (normalize_text loads g dl n raw) = true := by
  unfold normalize_text
  rcases h with ⟨e, he⟩ | ⟨kvs, hk⟩
  · rw [he]
    rfl
  · rw [hk]
    exact validate_tasks_obj_ok _ _

/-- Witness for C2 amended: prose with no JSON parses to an error and is
recovered. -/
theorem c2_amended_no_raise_witness :
    ((∃ e, jsonLoads (cleanText ("hello".toList)) = .error e)
      ∨ ∃ kvs, jsonLoads (cleanText ("hello".toList)) = .ok (.obj kvs))
    ∧ exceptIsOk (normalize_text jsonLoads "g" "2026-01-01" 0 ("hello".toList)) = true :=
  ⟨Or.inl ⟨"No valid JSON value could be decoded", rfl⟩,
    c2_amended_no_raise jsonLoads "g" "2026-01-01" 0 ("hello".toList)
      (Or.inl ⟨"No valid JSON value could be decoded", rfl⟩)⟩

/-- C9 counterexample: the claim says every fallback substitution is
signalled to the caller, but in the missing-`tasks` case nothing is added:
for the completion "\x7b\x7d" the returned plan is exactly the parsed empty
object plus the substituted fallback `tasks` — it has no `risk_factors`
field and no `error` field (the field `app.py` line 124 checks for), so it
is indistinguishable from a model-produced plan with the same content. -/
theorem c9_counterexample :
    (generate_task_plan (okApi "\x7b\x7d") (okApi "x") jsonLoads "g" "2026-01-01" 0).1
      = .ok (.obj [("tasks", .arr (generate_fallback_tasks "g" "2026-01-01" 0))])
    ∧ getKey [("tasks", JVal.arr (generate_fallback_tasks "g" "2026-01-01" 0))] "risk_factors" = none
    ∧ getKey [("tasks", JVal.arr (generate_fallback_tasks "g" "2026-01-01" 0))] "error" = none :=
  ⟨rfl, rfl, rfl⟩

/-- C9 amended: only the total-parse-failure path annotates the returned
plan: there the plan carries the single risk factor "Invalid LLM response"
signalling the substitution; when only the `tasks` field is replaced
(missing or non-list `tasks`), no indication of any kind is added and the
caller cannot distinguish the plan from a model-produced one. -/
theorem c9_amended_indication_on_parse_failure
    (pApi bApi : Nat → Except String Response) (loads : List Char → Except String JVal)
    (g dl : String) (n : Int) (r : Response) (e : String)
    (hobt : tryPrimaryThenBackup pApi bApi = some r)
    (hparse : loads (cleanText (extractContent r)) = .error e) :
    planRiskFactors? (generate_task_plan pApi bApi loads g dl n).1
      = some (.arr [.str "Invalid LLM response"]) := by
  rw [generate_task_plan_fst_of_obtained pApi bApi loads g dl n r hobt]
  unfold normalize_text
  rw [hparse]
  rfl

/-- Witness for C9 amended: a prose-only completion. -/
theorem c9_amended_indication_witness :
    tryPrimaryThenBackup (okApi "still thinking") (okApi "x")
        = some (Response.mk ["still thinking"])
    ∧ jsonLoads (cleanText (extractContent (Response.mk ["still thinking"])))
        = .error "No valid JSON value could be decoded"
    ∧ planRiskFactors? (generate_task_plan (okApi "still thinking") (okApi "x")
          jsonLoads "g" "2026-04-01" 0).1
        = some (.arr [.str "Invalid LLM response"]) :=
  ⟨rfl, rfl,
    c9_amended_indication_on_parse_failure (okApi "still thinking") (okApi "x") jsonLoads
      "g" "2026-04-01" 0 (Response.mk ["still thinking"])
      "No valid JSON value could be decoded" rfl rfl⟩

/-- C1 counterexample: the claim says the returned dict always has a
non-empty `tasks` sequence once a completion text is obtained, but the
validation of line 141 only checks that `tasks` exists and is a list, not
that it is non-empty: the completion `\x7b"tasks": []\x7d` is returned
as-is, with an empty `tasks` list. -/
theorem c1_counterexample :
    (generate_task_plan (okApi "\x7b\"tasks\": []\x7d") (okApi "x") jsonLoads
        "build a compiler" "2026-01-01" 0).1
      = .ok (.obj [("tasks", .arr [])]) := rfl

/-- C1 amended: whenever a completion is obtained and `generate_task_plan`
returns a value, that value has a `tasks` field holding a list; the list is
the (always non-empty) fallback output unless the parsed completion itself
supplied a list, so it can be empty only when the model's own parsed
`tasks` field was the empty list. -/
theorem c1_amended_tasks_field
    (pApi bApi : Nat → Except String Response) (loads : List Char → Except String JVal)
    (g dl : String) (n : Int) (r : Response) (v : JVal)
    (hobt : tryPrimaryThenBackup pApi bApi = some r)
    (hok : (generate_task_plan pApi bApi loads g dl n).1 = .ok v) :
    (jvalTasks? v).isSome = true
    ∧ (jvalTasks? v = some [] →
        parsedTasks? loads (cleanText (extractContent r)) = some []) := by
  rw [generate_task_plan_fst_of_obtained pApi bApi loads g dl n r hobt] at hok
  unfold normalize_text at hok
  rcases hl : loads (cleanText (extractContent r)) with e | pv
  · rw [hl] at hok
    have hv : fallbackPlanObj g dl n = v := by simpa using hok
    subst hv
    refine ⟨rfl, fun hts => absurd ?_ (fallback_tasks_ne_nil g dl n)⟩
    simpa [jvalTasks?, fallbackPlanObj, getKey] using hts
  · rw [hl] at hok
    rcases pv with _ | b | i | s | xs | kvs
    · exact absurd hok (by simp [validate_tasks, pyContainsKey])
    · exact absurd hok (by simp [validate_tasks, pyContainsKey])
    · exact absurd hok (by simp [validate_tasks, pyContainsKey])
    · have hno := validate_tasks_nonobj_err (generate_fallback_tasks g dl n) (.str s) rfl
      dsimp only at hok
      rw [hok] at hno
      simp [exceptIsOk] at hno
    · have hno := validate_tasks_nonobj_err (generate_fallback_tasks g dl n) (.arr xs) rfl
      dsimp only at hok
      rw [hok] at hno
      simp [exceptIsOk] at hno
    · unfold validate_tasks pyContainsKey pyGetItemStr pySetItemStr hasKey at hok
      dsimp only at hok
      rcases hk : getKey kvs "tasks" with _ | t
      · rw [hk] at hok
        simp at hok
        subst hok
        refine ⟨?_, fun hts => absurd ?_ (fallback_tasks_ne_nil g dl n)⟩
        · simp [jvalTasks?, getKey_setKey_self]
        · simpa [jvalTasks?, getKey_setKey_self] using hts
      · rw [hk] at hok
        simp only [Option.isSome_some, Bool.not_true, Bool.false_eq_true, if_false] at hok
        rcases hlist : isList t with _ | _
        · rw [hlist] at hok
          simp at hok
          subst hok
          refine ⟨?_, fun hts => absurd ?_ (fallback_tasks_ne_nil g dl n)⟩
          · simp [jvalTasks?, getKey_setKey_self]
          · simpa [jvalTasks?, getKey_setKey_self] using hts
        · rw [hlist] at hok
          simp at hok
          subst hok
          rcases t with _ | b | i | s2 | ts | kvs2 <;> simp [isList] at hlist
          refine ⟨by simp [jvalTasks?, hk], fun hts => ?_⟩
          simp [parsedTasks?, hl]
          simpa [jvalTasks?, hk] using hts

/-- Witness for C1 amended: for the completion "\x7b\x7d" the returned
plan's `tasks` field holds the (non-empty) fallback list. -/
theorem c1_amended_tasks_field_witness :
    tryPrimaryThenBackup (okApi "\x7b\x7d") (okApi "x") = some (Response.mk ["\x7b\x7d"])
    ∧ (generate_task_plan (okApi "\x7b\x7d") (okApi "x") jsonLoads "write docs" "2026-03-01" 0).1
        = .ok (.obj [("tasks", .arr (generate_fallback_tasks "write docs" "2026-03-01" 0))])
    ∧ ((jvalTasks? (.obj [("tasks", .arr (generate_fallback_tasks "write docs" "2026-03-01" 0))])).isSome = true
      ∧ (jvalTasks? (.obj [("tasks", .arr (generate_fallback_tasks "write docs" "2026-03-01" 0))]) = some [] →
          parsedTasks? jsonLoads (cleanText (extractContent (Response.mk ["\x7b\x7d"]))) = some [])) :=
  ⟨rfl, rfl,
    c1_amended_tasks_field (okApi "\x7b\x7d") (okApi "x") jsonLoads "write docs" "2026-03-01" 0
      (Response.mk ["\x7b\x7d"])
      (.obj [("tasks", .arr (generate_fallback_tasks "write docs" "2026-03-01" 0))]) rfl rfl⟩

/-- C10: `generate_task_plan` propagates an invocation failure to its
caller exactly when the primary model fails all 3 attempts and the backup
model then also fails all 3 attempts; in that case the recorded
`time.sleep(5)` delays are one between each pair of consecutive attempts of
each model ([5, 5] for the primary, [5, 5] for the backup).  A propagated
invocation failure is an `apiError`, never a plan, so total invocation
failure is never routed to the Fallback Plan Generator (which, per C4 and
C5, is reached only through the parse/validation of an obtained
response). -/
theorem c10_invocation_retry_policy
    (pApi bApi : Nat → Except String Response) (loads : List Char → Except String JVal)
    (g dl : String) (n : Int) :
    isApiError (generate_task_plan pApi bApi loads g dl n).1
        = (allAttemptsFail pApi && allAttemptsFail bApi)
    ∧ ((allAttemptsFail pApi && allAttemptsFail bApi) = true →
        (generate_task_plan pApi bApi loads g dl n).2 = [5, 5, 5, 5]) := by
  obtain ⟨hpe, hpf⟩ := query3_characterization pApi
  obtain ⟨hbe, hbf⟩ := query3_characterization bApi
  constructor
  · rcases hp : (query_hf_api pApi 3).1 with e | rp
    · rcases hb : (query_hf_api bApi 3).1 with e2 | rb
      · have hpa : allAttemptsFail pApi = true := by rw [← hpe, hp]; rfl
        have hba : allAttemptsFail bApi = true := by rw [← hbe, hb]; rfl
        simp [generate_task_plan, hp, hb, hpa, hba, isApiError]
      · have hba : allAttemptsFail bApi = false := by rw [← hbe, hb]; rfl
        simp [generate_task_plan, hp, hb, hba, normalize_text_not_apiError]
    · have hpa : allAttemptsFail pApi = false := by rw [← hpe, hp]; rfl
      simp [generate_task_plan, hp, hpa, normalize_text_not_apiError]
  · intro hall
    rw [Bool.and_eq_true] at hall
    obtain ⟨hpa, hba⟩ := hall
    have hp := hpf hpa
    have hb := hbf hba
    simp [generate_task_plan, hp, hb]

/-- Witness for C10: endpoints that fail every attempt. -/
theorem c10_invocation_retry_policy_witness :
    (allAttemptsFail (failApi "503") && allAttemptsFail (failApi "502")) = true
    ∧ (generate_task_plan (failApi "503") (failApi "502") jsonLoads "g" "2026-01-01" 0).2
        = [5, 5, 5, 5] :=
  ⟨rfl,
    (c10_invocation_retry_policy (failApi "503") (failApi "502") jsonLoads "g" "2026-01-01" 0).2
      rfl⟩

end STP
